/-
Verification of the scrape package (src/scrape/scrape.go) of dataflowkit.

The Go code is embedded shallowly: Go panics are made explicit through the
`GoResult` / `Outcome` result types, Go nil-able pointer fields become
`Option`, and Go maps in params become association lists.  The `Payload`
type, the `extract` / `paginate` helper packages and the `ksuid` library are
not part of the provided source file; they are modelled from the design
document, as marked in their doc comments.  Validity of a regular-expression
pattern (Go `regexp.Compile` success) is external to the repository and is
threaded through as an explicit predicate `rv : String → Bool`.
-/
import Mathlib

namespace Scrape

/-- A Go `interface{}` value stored inside an extractor params map: either a
string or some non-string value (whose precise identity never matters for
the scrape code, which only ever asserts `.(string)` on such values). -/
inductive GVal where
  | str (s : String)
  | other
deriving DecidableEq, Repr

/-- The dynamic value of `Field.Extractor.Params` (an `interface{}` in Go):
either a `map[string]interface{}` (modelled as an association list) or some
value of another dynamic type, on which the type assertion at scrape.go:170
panics. -/
inductive ParamsVal where
  | map (entries : List (String × GVal))
  | nonMap
deriving DecidableEq, Repr

/-- Modelled from the spec: one user field description
`{name, selector, extractor: {type, params}}` (§6); `params` is a nil-able
dynamic value (`f.Extractor.Params != nil` is tested at scrape.go:169). -/
structure ExtractorDesc where
  etype : String
  params : Option ParamsVal
deriving DecidableEq, Repr

/-- Modelled from the spec: a user field description of the payload (§6). -/
structure Field where
  name : String
  selector : String
  extractor : ExtractorDesc
deriving DecidableEq, Repr

/-- Modelled from the spec: the paginator description
`{selector, attribute, maxPages}` of the payload (§6); `attr` is the
`Attribute` field (the word is reserved in Lean). -/
structure PaginatorDesc where
  selector : String
  attr : String
  maxPages : Int
deriving DecidableEq, Repr

/-- Modelled from the spec: the configuration payload accepted by the Field
Compiler (§6): `fields`, `paginator | null`, `format`, `paginateResults:
bool`, `fetchDelay`, `randomizeFetchDelay: bool`, `retryTimes`.  The
`paginator` field is nil-able (tested at scrape.go:278), and
`paginateResults` / `randomizeFetchDelay` are pointers to bool, dereferenced
at scrape.go:299 and scrape.go:301; all three are `Option` here. -/
structure Payload where
  fields : List Field
  paginator : Option PaginatorDesc
  format : String
  paginateResults : Option Bool
  fetchDelay : Int
  randomizeFetchDelay : Option Bool
  retryTimes : Int
deriving DecidableEq, Repr

/-- Modelled from the spec: the Extractor Registry (§2) — constant, count,
text, raw markup, outer markup, attribute, regex, and the sub-extractors of
the composite link and image extractors.  `nilE` is the nil `extract.
Extractor` interface left by the unrecognised-type branch of the switch at
scrape.go:218 (no `default` arm assigns `e`). -/
inductive Extractor where
  | const
  | count
  | text
  | html
  | outerHtml
  | attr
  | regex (pattern : String)
  | linkText
  | linkHref
  | imageSrc
  | imageAlt
  | nilE
deriving DecidableEq, Repr

/-- A `Part` (scrape.go:34): one named field-extraction rule.  The `Details`
pointer is never assigned by `NewScraper` (always nil) and is omitted. -/
structure Part where
  name : String
  selector : String
  extractor : Extractor
deriving DecidableEq, Repr

/-- The paginator installed by `NewScraper`: the dummy paginator
(scrape.go:279) or `paginate.BySelector` (scrape.go:281).  Modelled from the
spec: the `paginate` package is external to the given source; §4.1 says the
dummy always reports no next page and `BySelector` is bound to the given
selector and link attribute. -/
inductive Paginator where
  | dummy
  | bySelector (selector : String) (attr : String)
deriving DecidableEq, Repr

/-- The page-division function chosen by `NewScraper` (scrape.go:284-290):
`DividePageBySelector "body"` when no selectors were collected, otherwise
`DividePageByIntersection` over the collected selectors.  Modelled from the
spec: the divider implementations are external to the given source (§4.2);
only which one is installed matters here. -/
inductive DividePage where
  | bySelector (sel : String)
  | byIntersection (sels : List String)
deriving DecidableEq, Repr

/-- Modelled from the spec: `ScrapeOptions` (§3) — `MaxPages: int`,
`Format`, `PaginateResults: bool`, `FetchDelay`, `RandomizeFetchDelay:
bool`, `RetryTimes: int`. -/
structure ScrapeOptions where
  maxPages : Int
  format : String
  paginateResults : Bool
  fetchDelay : Int
  randomizeFetchDelay : Bool
  retryTimes : Int
deriving DecidableEq, Repr

/-- `Scraper` (scrape.go:50): the scrape plan produced by `NewScraper`. -/
structure Scraper where
  paginator : Paginator
  dividePage : DividePage
  parts : List Part
  opts : ScrapeOptions
deriving DecidableEq, Repr

/-- The configuration errors returned by `NewScraper` (scrape.go:257-275):
`ErrNoParts` (scrape.go:25), and the three per-part validation errors, each
carrying the loop index `i` of the offending part. -/
inductive ScrapeError where
  | errNoParts
  | noName (i : Nat)
  | duplicateName (i : Nat)
  | noSelector (i : Nat)
deriving DecidableEq, Repr

/-- Result of running a piece of Go code that cannot return an error but may
panic. -/
inductive GoResult (α : Type) where
  | ok (a : α)
  | panic (msg : String)
deriving DecidableEq, Repr

/-- Result of running a piece of Go code that may return an error value or
panic. -/
inductive Outcome (α : Type) where
  | ok (a : α)
  | error (e : ScrapeError)
  | panic (msg : String)
deriving DecidableEq, Repr

/-- One block's record: the `map[string]interface{}` from Part names to
extracted values (scrape.go:92), as an association list. -/
abbrev Block := List (String × GVal)

/-- `Results` (scrape.go:84): the visited map (`map[string]error`, an
association list from URL to error-or-nil here) and the page/block results. -/
structure Results where
  visited : List (String × Option String)
  results : List (List Block)
deriving DecidableEq, Repr

/-- `Session` (scrape.go:121).  The `Robots` pointer is external
(`robotstxt.RobotsData`) and never touched by this file's code; only the
cookie string is kept. -/
structure Session where
  cookies : String
deriving DecidableEq, Repr

/-- Modelled from the spec: a KSUID of the external `ksuid` library — an
opaque identifier embedding a creation timestamp recoverable without
external storage (§3).  It is a timestamp plus a random payload; its string
form is an injective encoding of the two (the concrete base62 encoding is
irrelevant, only that `Parse` inverts `String` and `Time` projects the
embedded timestamp). -/
structure KSUID where
  timestamp : Nat
  payload : Nat
deriving DecidableEq, Repr

/-- `id.Time()` of the ksuid library: the timestamp embedded in the id. -/
def KSUID.time (k : KSUID) : Nat :=
  k.timestamp

/-- Modelled from the spec: the character form of `id.String()` — an
injective encoding of (timestamp, payload), unary here in place of base62. -/
def ksuidChars (k : KSUID) : List Char :=
  List.replicate k.timestamp 'x' ++ 'y' :: List.replicate k.payload 'x'

/-- Modelled from the spec: `id.String()` of the ksuid library. -/
def ksuidString (k : KSUID) : String :=
  String.mk (ksuidChars k)

/-- Modelled from the spec: the character-level parser inverting
`ksuidChars`; any string not in the image of the encoding fails. -/
def parseKsuidChars : List Char → Option KSUID
  | [] => none
  | 'y' :: rest =>
    if rest.all (fun c => c == 'x') then some ⟨0, rest.length⟩ else none
  | 'x' :: rest =>
    (parseKsuidChars rest).map (fun k => ⟨k.timestamp + 1, k.payload⟩)
  | _ => none

/-- Modelled from the spec: `ksuid.Parse` of the ksuid library — the partial
inverse of `ksuidString`. -/
def ksuidParse (s : String) : Option KSUID :=
  parseKsuidChars s.data

/-- `Task` (scrape.go:125): id, scraper, embedded session, status and
embedded results. -/
structure Task where
  id : String
  scraper : Scraper
  session : Session
  status : String
  results : Results
deriving DecidableEq, Repr

/-- `func (r *Results) First()` (scrape.go:99): `r.Results[0]` is indexed
before its length is tested, so a zero-page `Results` panics with an
index-out-of-range runtime error; otherwise the first block of the first
page is returned, or nil when that page has no blocks. -/
def Results.first (r : Results) : GoResult (Option Block) :=
  match r.results with
  | [] => GoResult.panic ("runtime error: index out of range")
  | page :: _ =>
    match page with
    | [] => GoResult.ok none
    | b :: _ => GoResult.ok (some b)

/-- `func (r *Results) AllBlocks()` (scrape.go:109): starts from the empty
list and appends every block of every page in order. -/
def Results.allBlocks (r : Results) : List Block :=
  r.results.foldl (fun acc page => acc ++ page) []

/-- The params extraction at scrape.go:168-171: a nil `Params` becomes the
empty map; a non-nil `Params` is type-asserted to `map[string]interface{}`,
panicking when it holds a value of any other type. -/
def getParams : Option ParamsVal → GoResult (List (String × GVal))
  | none => GoResult.ok []
  | some (ParamsVal.map m) => GoResult.ok m
  | some ParamsVal.nonMap => GoResult.panic ("interface conversion: not a map")

/-- Go map lookup `params[k]`: the value of the first entry with key `k`,
or nil (`none`) when the key is absent. -/
def lookupParam (m : List (String × GVal)) (k : String) : Option GVal :=
  (m.find? (fun e => e.1 = k)).map (fun e => e.2)

/-- The inner switch of the default branch (scrape.go:218-239), building the
extractor for the non-composite types.  For `regex`, `params["regexp"]` is
asserted to string (panicking on nil or a non-string) and handed to
`regexp.MustCompile`, which panics when the pattern does not compile
(`rv pat = false`).  An unrecognised type leaves the nil interface. -/
def buildDefaultExtractor (rv : String → Bool) (etype : String)
    (params : List (String × GVal)) : GoResult Extractor :=
  match etype with
  | "const" => GoResult.ok Extractor.const
  | "count" => GoResult.ok Extractor.count
  | "text" => GoResult.ok Extractor.text
  | "html" => GoResult.ok Extractor.html
  | "outerHtml" => GoResult.ok Extractor.outerHtml
  | "attr" => GoResult.ok Extractor.attr
  | "regex" =>
    match lookupParam params "regexp" with
    | none => GoResult.panic ("interface conversion: interface is nil, not string")
    | some (GVal.str pat) =>
      if rv pat then GoResult.ok (Extractor.regex pat)
      else GoResult.panic ("regexp: Compile(" ++ pat ++ "): error parsing regexp")
    | some GVal.other => GoResult.panic ("interface conversion: not a string")
  | _ => GoResult.ok Extractor.nilE

/-- One iteration of the field loop of `NewScraper` (scrape.go:167-255): the
parts appended for this field together with the one selector appended for
it.  `FillStruct` is modelled from the spec as best-effort configuration
application whose errors are logged and ignored (§4.1), so it affects
neither the emitted parts nor control flow. -/
def processField (rv : String → Bool) (f : Field) :
    GoResult (List Part × String) :=
  match getParams f.extractor.params with
  | GoResult.panic m => GoResult.panic m
  | GoResult.ok params =>
    match f.extractor.etype with
    | "link" =>
      GoResult.ok ([⟨f.name ++ "_text", f.selector, Extractor.linkText⟩,
                    ⟨f.name ++ "_link", f.selector, Extractor.linkHref⟩],
                   f.selector)
    | "image" =>
      GoResult.ok ([⟨f.name ++ "_src", f.selector, Extractor.imageSrc⟩,
                    ⟨f.name ++ "_alt", f.selector, Extractor.imageAlt⟩],
                   f.selector)
    | et =>
      match buildDefaultExtractor rv et params with
      | GoResult.panic m => GoResult.panic m
      | GoResult.ok e =>
        GoResult.ok ([⟨f.name, f.selector, e⟩], f.selector)

/-- The whole field loop of `NewScraper` (scrape.go:165-255): parts and
selectors accumulated over the fields in order; a panic in any iteration
aborts everything. -/
def buildParts (rv : String → Bool) : List Field → GoResult (List Part × List String)
  | [] => GoResult.ok ([], [])
  | f :: fs =>
    match processField rv f with
    | GoResult.panic m => GoResult.panic m
    | GoResult.ok (ps, sel) =>
      match buildParts rv fs with
      | GoResult.panic m => GoResult.panic m
      | GoResult.ok (rest, sels) => GoResult.ok (ps ++ rest, sel :: sels)

/-- The validation loop of `NewScraper` (scrape.go:262-275): walks the parts
with index `i` and the set of names seen so far; an empty name, an already
seen name, or an empty selector stops the loop with the corresponding
error. -/
def validateParts (seen : List String) (i : Nat) : List Part → Option ScrapeError
  | [] => none
  | part :: rest =>
    if part.name = "" then some (ScrapeError.noName i)
    else if part.name ∈ seen then some (ScrapeError.duplicateName i)
    else if part.selector = "" then some (ScrapeError.noSelector i)
    else validateParts (part.name :: seen) (i + 1) rest

/-- The Go runtime message of a nil-pointer dereference. -/
def nilDerefMsg : String :=
  "runtime error: invalid memory address or nil pointer dereference"

/-- `NewScraper` (scrape.go:164-311).  After part building and validation,
the paginator is the dummy when `p.Paginator` is nil, else
`paginate.BySelector`; the divider is by-selector `body` when no selectors
were collected, else by-intersection.  The `ScrapeOptions` literal then
dereferences `p.Paginator.MaxPages` (scrape.go:297), `*p.PaginateResults`
(scrape.go:299) and `*p.RandomizeFetchDelay` (scrape.go:301) in that order,
each a nil-pointer-dereference panic when the field is absent. -/
def NewScraper (rv : String → Bool) (p : Payload) : Outcome Scraper :=
  match buildParts rv p.fields with
  | GoResult.panic m => Outcome.panic m
  | GoResult.ok (parts, selectors) =>
    if parts = [] then Outcome.error ScrapeError.errNoParts
    else
      match validateParts [] 0 parts with
      | some e => Outcome.error e
      | none =>
        let paginator : Paginator :=
          match p.paginator with
          | none => Paginator.dummy
          | some pd => Paginator.bySelector pd.selector pd.attr
        let dividePage : DividePage :=
          if selectors = [] then DividePage.bySelector "body"
          else DividePage.byIntersection selectors
        match p.paginator with
        | none => Outcome.panic nilDerefMsg
        | some pd =>
          match p.paginateResults with
          | none => Outcome.panic nilDerefMsg
          | some pr =>
            match p.randomizeFetchDelay with
            | none => Outcome.panic nilDerefMsg
            | some rfd =>
              Outcome.ok
                { paginator := paginator
                  dividePage := dividePage
                  parts := parts
                  opts :=
                    { maxPages := pd.maxPages
                      format := p.format
                      paginateResults := pr
                      fetchDelay := p.fetchDelay
                      randomizeFetchDelay := rfd
                      retryTimes := p.retryTimes } }

/-- `NewTask` (scrape.go:134-151): builds the scraper, then a task holding a
fresh ksuid's string form as its ID; every other field — session, status and
in particular `Results` with its `Visited` map — is left at its Go zero
value.  The freshly generated ksuid is the explicit argument `k`. -/
def NewTask (rv : String → Bool) (p : Payload) (k : KSUID) : Outcome Task :=
  match NewScraper rv p with
  | Outcome.error e => Outcome.error e
  | Outcome.panic m => Outcome.panic m
  | Outcome.ok s =>
    Outcome.ok
      { id := ksuidString k
        scraper := s
        session := { cookies := "" }
        status := ""
        results := { visited := [], results := [] } }

/-- `func (t Task) StartTime()` (scrape.go:154-161): parses the stored ID
string back into a ksuid and projects its embedded time; `none` models the
error return on an unparseable ID.  No other field of the task is read. -/
def Task.startTime (t : Task) : Option Nat :=
  (ksuidParse t.id).map KSUID.time

/-! ## Concrete inputs used in witnesses and counterexamples -/

/-- A regex-compilation model in which every pattern is valid. -/
def rvAll : String → Bool := fun _ => true

/-- A regex-compilation model in which the lone pattern `(` is invalid
(as it is for Go `regexp.Compile`) and everything else is valid. -/
def rvNoParen : String → Bool := fun s => !(s == "(")

/-- A valid text field over selector `.title`. -/
def fieldTitle : Field := ⟨"title", ".title", ⟨"text", none⟩⟩

/-- A valid payload except that its paginator description is absent. -/
def payloadC1 : Payload :=
  ⟨[fieldTitle], none, "json", some true, 0, some false, 0⟩

/-- A payload with a regex field whose pattern `(` does not compile. -/
def payloadC3 : Payload :=
  ⟨[⟨"price", ".price", ⟨"regex", some (ParamsVal.map [("regexp", GVal.str "(")])⟩⟩],
    some ⟨".next", "href", 1⟩, "json", some true, 0, some false, 0⟩

/-- A payload whose parts pass validation but whose `PaginateResults`
pointer is absent. -/
def payloadC4 : Payload :=
  ⟨[fieldTitle], some ⟨".next", "href", 1⟩, "json", none, 0, some false, 0⟩

/-- A fully valid payload. -/
def payloadC4w : Payload :=
  ⟨[fieldTitle], some ⟨".next", "href", 2⟩, "json", some true, 100, some true, 3⟩

/-- A fully valid payload with one text field. -/
def payloadC6 : Payload :=
  ⟨[⟨"name", ".name", ⟨"text", none⟩⟩], some ⟨".more", "href", 1⟩, "json",
    some true, 0, some false, 0⟩

/-- A fully valid payload with one text field. -/
def payloadC8 : Payload :=
  ⟨[⟨"q", ".q", ⟨"text", none⟩⟩], some ⟨".next", "href", 0⟩, "json",
    some true, 0, some false, 0⟩

/-- A fully valid payload with one raw-markup field. -/
def payloadC9 : Payload :=
  ⟨[⟨"a", ".a", ⟨"html", none⟩⟩], some ⟨".nx", "href", 0⟩, "csv",
    some false, 0, some true, 2⟩

/-- A payload with no fields at all and all three pointer fields absent. -/
def payloadC10 : Payload := ⟨[], none, "", none, 0, none, 0⟩

/-- A payload whose parts pass validation but whose `PaginateResults`
pointer is absent (with a count field). -/
def payloadC10w : Payload :=
  ⟨[⟨"z", ".z", ⟨"count", none⟩⟩], some ⟨".n", "href", 1⟩, "json", none, 0,
    some true, 0⟩

/-! ## Helper lemmas -/

theorem all_eq_replicate (n : Nat) (c : Char) :
    (List.replicate n c).all (fun d => d == c) = true := by
  induction n with
  | zero => rfl
  | succ n ih => simp [List.replicate, List.all, ih]

theorem parseKsuidChars_encode (t p : Nat) :
    parseKsuidChars (List.replicate t 'x' ++ 'y' :: List.replicate p 'x') =
      some ⟨t, p⟩ := by
  induction t with
  | zero =>
    simp [parseKsuidChars, all_eq_replicate, List.length_replicate]
  | succ t ih =>
    simp [List.replicate, parseKsuidChars, ih]

theorem ksuid_roundtrip (k : KSUID) : ksuidParse (ksuidString k) = some k := by
  cases k with
  | mk t p =>
    show parseKsuidChars (List.replicate t 'x' ++ 'y' :: List.replicate p 'x') = _
    rw [parseKsuidChars_encode]

theorem foldl_append_eq_flatten (l : List (List Block)) :
    ∀ acc : List Block, l.foldl (fun a page => a ++ page) acc = acc ++ l.flatten := by
  induction l with
  | nil => intro acc; simp
  | cons page rest ih => intro acc; simp [List.foldl, ih]

/-- Every successful field iteration contributes a non-empty list of
parts: one part in the default branch, two for link and image. -/
theorem processField_ok_parts_ne_nil (rv : String → Bool) (f : Field)
    (ps : List Part) (sel : String)
    (h : processField rv f = GoResult.ok (ps, sel)) : ps ≠ [] := by
  unfold processField at h
  split at h
  · exact absurd h (by simp)
  · split at h
    · cases h; simp
    · cases h; simp
    · split at h
      · exact absurd h (by simp)
      · cases h; simp

/-- If the selector list accumulated by `buildParts` is empty then so is the
part list (both are empty exactly on an empty field list). -/
theorem buildParts_sels_nil (rv : String → Bool) (fs : List Field)
    (ps : List Part) (sl : List String)
    (h : buildParts rv fs = GoResult.ok (ps, sl)) (hsl : sl = []) : ps = [] := by
  cases fs with
  | nil =>
    unfold buildParts at h
    cases h; rfl
  | cons f rest =>
    unfold buildParts at h
    split at h
    · exact absurd h (by simp)
    · split at h
      · exact absurd h (by simp)
      · cases h; cases hsl

/-- A field whose iteration panics makes the whole field loop panic. -/
theorem buildParts_panic_of_mem (rv : String → Bool) (fs : List Field)
    (f : Field) (hf : f ∈ fs) (m : String)
    (hp : processField rv f = GoResult.panic m) :
    ∃ m2, buildParts rv fs = GoResult.panic m2 := by
  induction fs with
  | nil => cases hf
  | cons g rest ih =>
    rcases List.mem_cons.mp hf with hg | hrest
    · subst hg
      exact ⟨m, by unfold buildParts; rw [hp]⟩
    · unfold buildParts
      cases hpr : processField rv g with
      | panic m3 => exact ⟨m3, rfl⟩
      | ok pr =>
        obtain ⟨m2, hm2⟩ := ih hrest
        cases pr with
        | mk ps sel => rw [hm2]; exact ⟨m2, rfl⟩

/-- A panic of the field loop is a panic of `NewScraper`. -/
theorem newScraper_panic_of_buildParts_panic (rv : String → Bool) (p : Payload)
    (m : String) (h : buildParts rv p.fields = GoResult.panic m) :
    NewScraper rv p = Outcome.panic m := by
  unfold NewScraper
  rw [h]

/-- The validation loop succeeds exactly when every part has a non-empty
name and selector, the names are pairwise distinct, and no name collides
with the already-seen set. -/
theorem validateParts_none_iff (ps : List Part) :
    ∀ (seen : List String) (i : Nat),
      validateParts seen i ps = none ↔
        ((ps.map Part.name).Nodup ∧
          ∀ pt ∈ ps, pt.name ≠ "" ∧ pt.selector ≠ "" ∧ pt.name ∉ seen) := by
  induction ps with
  | nil => intro seen i; simp [validateParts]
  | cons part rest ih =>
    intro seen i
    unfold validateParts
    by_cases h1 : part.name = ""
    · rw [if_pos h1]
      constructor
      · intro h; cases h
      · rintro ⟨-, hall⟩
        exact absurd h1 (hall part (List.mem_cons_self part rest)).1
    · rw [if_neg h1]
      by_cases h2 : part.name ∈ seen
      · rw [if_pos h2]
        constructor
        · intro h; cases h
        · rintro ⟨-, hall⟩
          exact absurd h2 (hall part (List.mem_cons_self part rest)).2.2
      · rw [if_neg h2]
        by_cases h3 : part.selector = ""
        · rw [if_pos h3]
          constructor
          · intro h; cases h
          · rintro ⟨-, hall⟩
            exact absurd h3 (hall part (List.mem_cons_self part rest)).2.1
        · rw [if_neg h3]
          rw [ih (part.name :: seen) (i + 1)]
          constructor
          · rintro ⟨hnd, hall⟩
            refine ⟨?_, ?_⟩
            · rw [List.map_cons, List.nodup_cons]
              refine ⟨?_, hnd⟩
              intro hmem
              obtain ⟨pt, hpt, heq⟩ := List.mem_map.mp hmem
              exact (hall pt hpt).2.2 (List.mem_cons.mpr (Or.inl heq))
            · intro pt hpt
              rcases List.mem_cons.mp hpt with heq | hpt2
              · subst heq
                exact ⟨h1, h3, h2⟩
              · have hc := hall pt hpt2
                exact ⟨hc.1, hc.2.1, fun hm => hc.2.2 (List.mem_cons.mpr (Or.inr hm))⟩
          · rintro ⟨hnd, hall⟩
            rw [List.map_cons, List.nodup_cons] at hnd
            refine ⟨hnd.2, ?_⟩
            intro pt hpt
            have hc := hall pt (List.mem_cons.mpr (Or.inr hpt))
            refine ⟨hc.1, hc.2.1, ?_⟩
            intro hm
            rcases List.mem_cons.mp hm with heq | hmem
            · exact hnd.1 (List.mem_map.mpr ⟨pt, hpt, heq⟩)
            · exact hc.2.2 hmem

/-- Any error produced by the validation loop is one of the three per-part
errors — never `errNoParts`. -/
theorem validateParts_some_shape (ps : List Part) :
    ∀ (seen : List String) (i : Nat) (e : ScrapeError),
      validateParts seen i ps = some e →
        ∃ j, e = ScrapeError.noName j ∨ e = ScrapeError.duplicateName j ∨
          e = ScrapeError.noSelector j := by
  induction ps with
  | nil => intro seen i e h; cases h
  | cons part rest ih =>
    intro seen i e h
    unfold validateParts at h
    split at h
    · cases h; exact ⟨i, Or.inl rfl⟩
    · split at h
      · cases h; exact ⟨i, Or.inr (Or.inl rfl)⟩
      · split at h
        · cases h; exact ⟨i, Or.inr (Or.inr rfl)⟩
        · exact ih _ _ _ h

/-- Inversion of a successful `NewScraper` run: the parts and selectors come
from a non-panicking field loop, the parts are non-empty and pass
validation, the three pointer fields of the payload are present, and the
scraper is exactly the literal of scrape.go:292-304 (in particular the
installed paginator is `BySelector`, since a nil `p.Paginator` would have
panicked at scrape.go:297). -/
theorem newScraper_ok_inv (rv : String → Bool) (p : Payload) (s : Scraper)
    (h : NewScraper rv p = Outcome.ok s) :
    ∃ parts sels pd pr rfd,
      buildParts rv p.fields = GoResult.ok (parts, sels) ∧
      parts ≠ [] ∧
      validateParts [] 0 parts = none ∧
      p.paginator = some pd ∧
      p.paginateResults = some pr ∧
      p.randomizeFetchDelay = some rfd ∧
      s = { paginator := Paginator.bySelector pd.selector pd.attr
            dividePage :=
              if sels = [] then DividePage.bySelector "body"
              else DividePage.byIntersection sels
            parts := parts
            opts :=
              { maxPages := pd.maxPages
                format := p.format
                paginateResults := pr
                fetchDelay := p.fetchDelay
                randomizeFetchDelay := rfd
                retryTimes := p.retryTimes } } := by
  unfold NewScraper at h
  cases hb : buildParts rv p.fields with
  | panic m => simp [hb] at h
  | ok pr0 =>
    obtain ⟨parts, sels⟩ := pr0
    simp only [hb] at h
    by_cases hne : parts = []
    · rw [if_pos hne] at h
      exact absurd h (by simp)
    · rw [if_neg hne] at h
      cases hval : validateParts [] 0 parts with
      | some e =>
        simp only [hval] at h
        exact absurd h (by simp)
      | none =>
        simp only [hval] at h
        cases hpag : p.paginator with
        | none => simp [hpag] at h
        | some pd =>
          cases hpr : p.paginateResults with
          | none => simp [hpag, hpr] at h
          | some pr =>
            cases hrfd : p.randomizeFetchDelay with
            | none => simp [hpag, hpr, hrfd] at h
            | some rfd =>
              simp only [hpag, hpr, hrfd] at h
              refine ⟨parts, sels, pd, pr, rfd, rfl, hne, hval, rfl, rfl, rfl, ?_⟩
              injection h with h2
              exact h2.symm

/-! ## Claims -/

/-- Claim C1 (code bug): the spec — and the code's own comment at
scrape.go:53 and its nil test at scrape.go:278 — say that a payload with no
paginator description gets a no-op paginator and construction succeeds; the
code does install the dummy paginator but then unconditionally dereferences
`p.Paginator.MaxPages` at scrape.go:297, so `NewScraper` on an otherwise
fully valid payload with a nil paginator panics with a nil-pointer
dereference instead of succeeding. -/
theorem c1_nil_paginator_newScraper_panics :
    payloadC1.paginator = none ∧
    NewScraper rvAll payloadC1 = Outcome.panic nilDerefMsg :=
  ⟨rfl, rfl⟩

/-- Claim C2 counterexample: on a `Results` with zero pages, `First`
indexes `r.Results[0]` (scrape.go:100) and panics with index out of range,
so it does not return nil there — the claim's "including when the Results
contains zero pages — never crashing" is false. -/
theorem c2_first_zero_pages_panics :
    (Results.mk [] []).first = GoResult.panic ("runtime error: index out of range") :=
  rfl

/-- Claim C2 (amended): when the `Results` holds at least one page, `First`
returns the first block of the first page, or nil when that page has no
blocks; on a zero-page `Results` it panics with an index-out-of-range
runtime error rather than returning nil. -/
theorem c2_first_amended (r : Results) :
    (r.results = [] →
      r.first = GoResult.panic ("runtime error: index out of range")) ∧
    (∀ page rest, r.results = page :: rest →
      r.first = GoResult.ok page.head?) := by
  constructor
  · intro h
    unfold Results.first
    rw [h]
  · intro page rest h
    unfold Results.first
    rw [h]
    cases page <;> rfl

/-- Witness for the amended C2 at a concrete one-page `Results`. -/
theorem c2_first_amended_witness :
    (Results.mk [("http://seed", none)] [[[("title", GVal.str "A")]]]).first =
      GoResult.ok (some [("title", GVal.str "A")]) :=
  (c2_first_amended (Results.mk [("http://seed", none)] [[[("title", GVal.str "A")]]])).2
    [[("title", GVal.str "A")]] [] rfl

/-- Claim C3 counterexample: a payload whose regex field carries the
non-compiling pattern `(` makes `NewScraper` panic (the `MustCompile` call
at scrape.go:237); construction does not return a configuration error, it
crashes — contradicting the claim's "returned at build time … rather than a
per-record error or a crash". -/
theorem c3_bad_regex_counterexample :
    NewScraper rvNoParen payloadC3 =
      Outcome.panic ("regexp: Compile((): error parsing regexp") :=
  rfl

/-- Claim C3 (amended): for every payload containing a regex field whose
`regexp` param is a pattern that does not compile, scraper construction
fails fatally at build time — task creation is prevented, and the failure is
never a per-record error — but it fails by a panic from
`regexp.MustCompile`, not by a returned error value. -/
theorem c3_bad_regex_amended (rv : String → Bool) (p : Payload)
    (n sel : String) (m : List (String × GVal)) (pat : String)
    (hf : (⟨n, sel, ⟨"regex", some (ParamsVal.map m)⟩⟩ : Field) ∈ p.fields)
    (hl : lookupParam m "regexp" = some (GVal.str pat))
    (hrv : rv pat = false) :
    ∃ msg, NewScraper rv p = Outcome.panic msg := by
  have hpf : processField rv ⟨n, sel, ⟨"regex", some (ParamsVal.map m)⟩⟩ =
      GoResult.panic ("regexp: Compile(" ++ pat ++ "): error parsing regexp") := by
    unfold processField
    dsimp only [getParams]
    unfold buildDefaultExtractor
    rw [hl]
    simp [hrv]
  obtain ⟨m2, hm2⟩ := buildParts_panic_of_mem rv p.fields _ hf _ hpf
  exact ⟨m2, newScraper_panic_of_buildParts_panic rv p m2 hm2⟩

/-- Witness for the amended C3 at the concrete bad-regex payload. -/
theorem c3_bad_regex_amended_witness :
    ∃ msg, NewScraper rvNoParen payloadC3 = Outcome.panic msg :=
  c3_bad_regex_amended rvNoParen payloadC3 "price" ".price"
    [("regexp", GVal.str "(")] "(" (List.mem_cons_self _ _) rfl rfl

/-- Claim C4 counterexample: `payloadC4` builds one valid part that passes
the whole validation loop, yet `NewScraper` neither returns a `Scraper` nor
an error — it panics dereferencing the absent `PaginateResults` pointer
(scrape.go:299) — so "for every payload passing these checks it returns a
Scraper and no error" is false. -/
theorem c4_counterexample :
    buildParts rvAll payloadC4.fields =
      GoResult.ok ([⟨"title", ".title", Extractor.text⟩], [".title"]) ∧
    validateParts [] 0 [⟨"title", ".title", Extractor.text⟩] = none ∧
    NewScraper rvAll payloadC4 = Outcome.panic nilDerefMsg :=
  ⟨rfl, rfl, rfl⟩

/-- Claim C4 (amended): `NewScraper` validates after all parts are built:
it returns `ErrNoParts` on zero parts; validation succeeds exactly when all
part names and selectors are non-empty and the names are pairwise distinct;
any validation error (always one of missing-name, duplicate-name,
missing-selector) is returned as-is; and a payload passing these checks
yields a `Scraper` and no error provided its `Paginator`,
`PaginateResults` and `RandomizeFetchDelay` pointer fields are all present
(absent ones make construction panic instead, see C10). -/
theorem c4_validation_amended (rv : String → Bool) (p : Payload)
    (parts : List Part) (sels : List String)
    (hb : buildParts rv p.fields = GoResult.ok (parts, sels)) :
    (parts = [] → NewScraper rv p = Outcome.error ScrapeError.errNoParts) ∧
    (validateParts [] 0 parts = none ↔
      ((parts.map Part.name).Nodup ∧
        ∀ pt ∈ parts, pt.name ≠ "" ∧ pt.selector ≠ "")) ∧
    (∀ e, validateParts [] 0 parts = some e →
      (parts ≠ [] → NewScraper rv p = Outcome.error e) ∧
      ∃ j, e = ScrapeError.noName j ∨ e = ScrapeError.duplicateName j ∨
        e = ScrapeError.noSelector j) ∧
    (parts ≠ [] → validateParts [] 0 parts = none →
      ∀ pd pr rfd, p.paginator = some pd → p.paginateResults = some pr →
        p.randomizeFetchDelay = some rfd →
        NewScraper rv p =
          Outcome.ok
            { paginator := Paginator.bySelector pd.selector pd.attr
              dividePage :=
                if sels = [] then DividePage.bySelector "body"
                else DividePage.byIntersection sels
              parts := parts
              opts :=
                { maxPages := pd.maxPages
                  format := p.format
                  paginateResults := pr
                  fetchDelay := p.fetchDelay
                  randomizeFetchDelay := rfd
                  retryTimes := p.retryTimes } }) := by
  refine ⟨?_, ?_, ?_, ?_⟩
  · intro h
    unfold NewScraper
    simp only [hb]
    rw [if_pos h]
  · rw [validateParts_none_iff]
    constructor
    · rintro ⟨hnd, hall⟩
      exact ⟨hnd, fun pt hpt => ⟨(hall pt hpt).1, (hall pt hpt).2.1⟩⟩
    · rintro ⟨hnd, hall⟩
      exact ⟨hnd, fun pt hpt =>
        ⟨(hall pt hpt).1, (hall pt hpt).2, List.not_mem_nil pt.name⟩⟩
  · intro e he
    constructor
    · intro hne
      unfold NewScraper
      simp only [hb]
      rw [if_neg hne]
      simp only [he]
    · exact validateParts_some_shape parts [] 0 e he
  · intro hne hval pd pr rfd hpd hpr hrfd
    unfold NewScraper
    simp only [hb]
    rw [if_neg hne]
    simp only [hval, hpd, hpr, hrfd]

/-- Witness for the amended C4: the fully valid `payloadC4w` yields exactly
the expected scraper. -/
theorem c4_validation_amended_witness :
    NewScraper rvAll payloadC4w =
      Outcome.ok
        { paginator := Paginator.bySelector ".next" "href"
          dividePage := DividePage.byIntersection [".title"]
          parts := [⟨"title", ".title", Extractor.text⟩]
          opts := ⟨2, "json", true, 100, true, 3⟩ } :=
  (c4_validation_amended rvAll payloadC4w [⟨"title", ".title", Extractor.text⟩]
    [".title"] rfl).2.2.2 (by simp) rfl ⟨".next", "href", 2⟩ true true rfl rfl rfl

/-- Claim C5: a field description of type `link` with name `X` makes the
field compiler emit exactly two parts, named `X_text` and `X_link`, both
with the field's selector — whatever the params map holds (or with params
absent). -/
theorem c5_link_two_parts (rv : String → Bool) (n sel : String)
    (ps : Option ParamsVal)
    (hp : ps = none ∨ ∃ m, ps = some (ParamsVal.map m)) :
    processField rv ⟨n, sel, ⟨"link", ps⟩⟩ =
      GoResult.ok ([⟨n ++ "_text", sel, Extractor.linkText⟩,
                    ⟨n ++ "_link", sel, Extractor.linkHref⟩], sel) := by
  rcases hp with rfl | ⟨m, rfl⟩
  · rfl
  · rfl

/-- Witness for C5 at a concrete link field with a params override. -/
theorem c5_link_two_parts_witness :
    processField rvAll
      ⟨"u", ".u a", ⟨"link", some (ParamsVal.map [("attr", GVal.str "data-href")])⟩⟩ =
      GoResult.ok ([⟨"u_text", ".u a", Extractor.linkText⟩,
                    ⟨"u_link", ".u a", Extractor.linkHref⟩], ".u a") :=
  c5_link_two_parts rvAll "u" ".u a" _
    (Or.inr ⟨[("attr", GVal.str "data-href")], rfl⟩)

/-- Claim C6 (code bug): the `Results` documentation (scrape.go:86) says the
`Visited` map always contains at least one entry — the initial URL — but
`NewTask` (scrape.go:146-149) sets only `ID` and `Scraper`, leaving
`Results` at its zero value, so the task it returns has an empty `Visited`
map. -/
theorem c6_newTask_visited_empty :
    NewTask rvAll payloadC6 ⟨7, 5⟩ =
      Outcome.ok
        { id := ksuidString ⟨7, 5⟩
          scraper :=
            { paginator := Paginator.bySelector ".more" "href"
              dividePage := DividePage.byIntersection [".name"]
              parts := [⟨"name", ".name", Extractor.text⟩]
              opts := ⟨1, "json", true, 0, false, 0⟩ }
          session := ⟨""⟩
          status := ""
          results := { visited := [], results := [] } } :=
  rfl

/-- Claim C7: `AllBlocks` returns the in-order concatenation of all blocks
of all pages, and on a zero-page `Results` it returns the empty list — it
always returns a concrete list, never an error and never absence. -/
theorem c7_allBlocks_flatten :
    (∀ r : Results, r.allBlocks = r.results.flatten) ∧
    (∀ v, (Results.mk v []).allBlocks = []) := by
  constructor
  · intro r
    unfold Results.allBlocks
    rw [foldl_append_eq_flatten]
    simp
  · intro v
    rfl

/-- Claim C8: for every task returned successfully by `NewTask`,
`StartTime` returns without error, and the time it returns is exactly the
creation timestamp embedded in the task's ID string — `startTime` reads
nothing but `t.id` (see its definition), and the model `Task` stores no
separate timestamp at all. -/
theorem c8_startTime_from_id (rv : String → Bool) (p : Payload) (k : KSUID)
    (t : Task) (h : NewTask rv p k = Outcome.ok t) :
    t.startTime = some k.time := by
  unfold NewTask at h
  cases hs : NewScraper rv p with
  | error e => simp [hs] at h
  | panic m => simp [hs] at h
  | ok s =>
    simp only [hs] at h
    injection h with h2
    subst h2
    unfold Task.startTime
    show (ksuidParse (ksuidString k)).map KSUID.time = some k.time
    rw [ksuid_roundtrip]
    rfl

/-- Witness for C8: the task built from `payloadC8` with a ksuid whose
timestamp is 11 reports start time 11. -/
theorem c8_startTime_from_id_witness :
    Task.startTime
      { id := ksuidString ⟨11, 4⟩
        scraper :=
          { paginator := Paginator.bySelector ".next" "href"
            dividePage := DividePage.byIntersection [".q"]
            parts := [⟨"q", ".q", Extractor.text⟩]
            opts := ⟨0, "json", true, 0, false, 0⟩ }
        session := ⟨""⟩
        status := ""
        results := ⟨[], []⟩ } = some 11 :=
  c8_startTime_from_id rvAll payloadC8 ⟨11, 4⟩ _ rfl

/-- Claim C9: every field iteration contributes exactly one selector and a
non-empty part list, and zero parts is rejected before the divider is
chosen, so whenever `NewScraper` succeeds the collected selector list is
non-empty and the returned scraper's `DividePage` is the intersection-based
divider — the whole-body fallback branch is never selected. -/
theorem c9_dividePage_intersection (rv : String → Bool) (p : Payload)
    (s : Scraper) (h : NewScraper rv p = Outcome.ok s) :
    ∃ sels, sels ≠ [] ∧ s.dividePage = DividePage.byIntersection sels := by
  obtain ⟨parts, sels, pd, pr, rfd, hb, hne, hval, hpd, hpr, hrfd, hs⟩ :=
    newScraper_ok_inv rv p s h
  have hsl : sels ≠ [] := fun hsl =>
    hne (buildParts_sels_nil rv p.fields parts sels hb hsl)
  refine ⟨sels, hsl, ?_⟩
  subst hs
  show (if sels = [] then DividePage.bySelector "body"
        else DividePage.byIntersection sels) = DividePage.byIntersection sels
  rw [if_neg hsl]

/-- Witness for C9 at the concrete `payloadC9`. -/
theorem c9_dividePage_intersection_witness :
    ∃ sels, sels ≠ [] ∧
      (Scraper.mk (Paginator.bySelector ".nx" "href")
        (DividePage.byIntersection [".a"]) [⟨"a", ".a", Extractor.html⟩]
        ⟨0, "csv", false, 0, true, 2⟩).dividePage =
        DividePage.byIntersection sels :=
  c9_dividePage_intersection rvAll payloadC9 _ rfl

/-- Claim C10 counterexample: on a payload with zero fields and absent
`PaginateResults` and `RandomizeFetchDelay`, `NewScraper` returns — with the
`ErrNoParts` error — without ever dereferencing those fields, so "for every
payload on which NewScraper returns (success or error-by-return), those two
fields were present" is false. -/
theorem c10_counterexample :
    payloadC10.paginateResults = none ∧
    payloadC10.randomizeFetchDelay = none ∧
    NewScraper rvAll payloadC10 = Outcome.error ScrapeError.errNoParts :=
  ⟨rfl, rfl, rfl⟩

/-- Claim C10 (amended): the unconditional dereferences at scrape.go:299 and
scrape.go:301 happen only after validation passes, so (a) on every payload
on which `NewScraper` succeeds both pointer fields were present, and (b) a
payload passing part validation but lacking either field makes construction
panic rather than return a configuration error. -/
theorem c10_deref_amended :
    (∀ (rv : String → Bool) (p : Payload) (s : Scraper),
      NewScraper rv p = Outcome.ok s →
      p.paginateResults ≠ none ∧ p.randomizeFetchDelay ≠ none) ∧
    (∀ (rv : String → Bool) (p : Payload) (parts : List Part)
      (sels : List String),
      buildParts rv p.fields = GoResult.ok (parts, sels) →
      parts ≠ [] →
      validateParts [] 0 parts = none →
      (p.paginateResults = none ∨ p.randomizeFetchDelay = none) →
      ∃ m, NewScraper rv p = Outcome.panic m) := by
  constructor
  · intro rv p s h
    obtain ⟨parts, sels, pd, pr, rfd, hb, hne, hval, hpd, hpr, hrfd, hs⟩ :=
      newScraper_ok_inv rv p s h
    rw [hpr, hrfd]
    exact ⟨by simp, by simp⟩
  · intro rv p parts sels hb hne hval habs
    cases hpag : p.paginator with
    | none =>
      refine ⟨nilDerefMsg, ?_⟩
      unfold NewScraper
      simp only [hb]
      rw [if_neg hne]
      simp only [hval, hpag]
    | some pd =>
      rcases habs with hpr | hrfd
      · refine ⟨nilDerefMsg, ?_⟩
        unfold NewScraper
        simp only [hb]
        rw [if_neg hne]
        simp only [hval, hpag, hpr]
      · cases hpr2 : p.paginateResults with
        | none =>
          refine ⟨nilDerefMsg, ?_⟩
          unfold NewScraper
          simp only [hb]
          rw [if_neg hne]
          simp only [hval, hpag, hpr2]
        | some pr =>
          refine ⟨nilDerefMsg, ?_⟩
          unfold NewScraper
          simp only [hb]
          rw [if_neg hne]
          simp only [hval, hpag, hpr2, hrfd]

/-- Witness for the amended C10: `payloadC10w` passes validation but lacks
`PaginateResults`, so construction panics. -/
theorem c10_deref_amended_witness :
    ∃ m, NewScraper rvAll payloadC10w = Outcome.panic m :=
  c10_deref_amended.2 rvAll payloadC10w [⟨"z", ".z", Extractor.count⟩] [".z"]
    rfl (by simp) rfl (Or.inl rfl)

end Scrape
